import Mathlib

/-!
Shallow embedding of `src/main.py` (the IBEam demo API server) and proofs about
the claims of its specification.

The embedding has two layers:

1. A faithful model of the module-level state (`connected`, `server_state`),
   the connection management functions (`connect_to_ib`, `disconnect_from_ib`),
   and the API-key check (`verify_api_key`), translated line by line.

2. A small statement language (`PyStmt` / `PyExpr`) with Python's function-local
   scoping semantics, used to transcribe the bodies of the six data handlers
   (`get_accounts`, `get_positions`, `get_orders`, `place_order`, `cancel_order`,
   `get_market_data`).  This level is needed because those handlers execute
   `if not connected: connected = await connect_to_ib()` without a `global`
   declaration: in Python, a name assigned anywhere in a function body (and not
   declared `global`) is local to the whole body, so the initial read of
   `connected` is a read of an unassigned local and raises `UnboundLocalError`.
   The data each handler would return past that point (the mock payloads and the
   validation of `order_data`) is embedded as ordinary pure functions.

Floating-point literals of the source only ever flow through the program
unchanged (no float arithmetic happens anywhere), so prices and quantities are
represented as rationals.
-/

namespace IBeamApi

/-! ## Module-level server state (main.py lines 36-59) -/

/-- The `server_state` dict (main.py lines 50-59). -/
structure ServerState where
  status : String
  user_id : String
  account_id : String
  connected : Bool
  last_connected : Option String
  startup_time : String
  ib_gateway_version : Option String
  error_message : Option String
deriving DecidableEq, Repr

/-- The module globals the handlers interact with: the flag `connected`
(line 47) and `server_state` (lines 50-59). -/
structure Globals where
  connected : Bool
  server_state : ServerState
deriving DecidableEq, Repr

/-- The state at module load (lines 47 and 50-59): `connected = False`,
status `"initializing"`, `account_id = "ib_" + IB_USERNAME`, timestamps and
version unset.  `user_id`, `ib_username` and `startup_time` come from the
environment / clock and are parameters. -/
def init_globals (user_id ib_username startup_time : String) : Globals :=
  { connected := false
    server_state :=
      { status := "initializing"
        user_id := user_id
        account_id := "ib_" ++ ib_username
        connected := false
        last_connected := none
        startup_time := startup_time
        ib_gateway_version := none
        error_message := none } }

/-- A module state in which the demo connection has been established
(as left by `connect_to_ib`), used as a concrete "while Connected" input. -/
def connected_globals : Globals :=
  { connected := true
    server_state :=
      { status := "connected"
        user_id := "u1"
        account_id := "ib_user"
        connected := true
        last_connected := some "t0"
        startup_time := "t0"
        ib_gateway_version := some "Demo Version"
        error_message := none } }

/-! ## Connection management (main.py lines 127-178) -/

/-- The `try` body of `connect_to_ib` (lines 134-151).  Every statement in it is
a dict-item assignment, a plain assignment, or a timestamp format — none can
raise — so the result is always `ok`.  `now` stands for
`datetime.utcnow().isoformat()`. -/
def connect_to_ib_try (now : String) (g : Globals) : Except String (Bool × Globals) :=
  let s1 := { g.server_state with status := "connecting" }
  let s2 := { s1 with
                connected := true
                last_connected := some now
                status := "connected"
                ib_gateway_version := some "Demo Version" }
  Except.ok (true, { connected := true, server_state := s2 })

/-- `connect_to_ib` (lines 127-158): early `return True` when already connected,
otherwise run the try body; the `except` branch (lines 152-158) records the
error, sets status `"error"` and returns `False`. -/
def connect_to_ib (now : String) (g : Globals) : Bool × Globals :=
  if g.connected then (true, g)
  else
    match connect_to_ib_try now g with
    | Except.ok r => r
    | Except.error e =>
        (false,
          { connected := false
            server_state :=
              { g.server_state with
                  status := "error"
                  error_message := some e
                  connected := false } })

/-- `disconnect_from_ib` (lines 160-178): early `return True` when not
connected; the try body (a pair of assignments, cannot raise) clears the flag
and sets status `"disconnected"`. -/
def disconnect_from_ib (g : Globals) : Bool × Globals :=
  if g.connected then
    (true,
      { connected := false
        server_state := { g.server_state with connected := false, status := "disconnected" } })
  else (true, g)

/-- The response dict of `POST /connect` and `POST /disconnect`
(lines 224-228 and 234-238). -/
structure ConnectResponse where
  success : Bool
  status : String
  timestamp : String
deriving DecidableEq, Repr

/-- The `connect` endpoint (lines 220-228): run `connect_to_ib`, then report its
result together with the status recorded in `server_state`. -/
def connect_endpoint (now : String) (g : Globals) : ConnectResponse × Globals :=
  let r := connect_to_ib now g
  ({ success := r.1, status := r.2.server_state.status, timestamp := now }, r.2)

/-- The invariant relating the two copies of the connection flag: whenever the
global `connected` is set, `server_state` also records `connected = True` and
status `"connected"`.  It holds at module load and is preserved by
`connect_to_ib` and `disconnect_from_ib` (proved below). -/
def connected_state_inv (g : Globals) : Prop :=
  g.connected = true →
    (g.server_state.connected = true ∧ g.server_state.status = "connected")

/-- Check that an `Except` value is `ok`. -/
def except_is_ok {ε α : Type} : Except ε α → Bool
  | Except.ok _ => true
  | Except.error _ => false

/-! ## API-key authentication (main.py lines 36-37 and 62-68) -/

/-- `API_KEY = os.environ.get("API_KEY", "")` — line 36. -/
def api_key_value (env : String → Option String) : String :=
  (env "API_KEY").getD ""

/-- `verify_api_key` (lines 62-68): raise HTTP 401 `"Invalid API Key"` unless
the presented value equals the configured `API_KEY`, else return it. -/
def verify_api_key (api_key_global api_key : String) : Except (Nat × String) String :=
  if api_key ≠ api_key_global then Except.error (401, "Invalid API Key")
  else Except.ok api_key

/-- Modelled from the `APIKeyHeader` security scheme instantiated at line 37
(FastAPI library code, a dependency that is not part of `src/`): with its
default `auto_error=True` it reads the `X-API-Key` header and, when the header
is absent or its value is falsy (the empty string), rejects the request with
HTTP 403 `"Not authenticated"` before the `verify_api_key` dependency runs. -/
def api_key_header_resolve (header : Option String) : Except (Nat × String) String :=
  match header with
  | none => Except.error (403, "Not authenticated")
  | some v => if v = "" then Except.error (403, "Not authenticated") else Except.ok v

/-- The authentication outcome of one request to a protected endpoint: header
resolution by the security scheme, then `verify_api_key` on the value. -/
def request_auth (api_key_global : String) (header : Option String) :
    Except (Nat × String) String :=
  match api_key_header_resolve header with
  | Except.error e => Except.error e
  | Except.ok v => verify_api_key api_key_global v

/-! ## The handler statement language and Python's local-scoping semantics

The six data handlers (lines 240-415) share the prologue

    if not connected:
        connected = await connect_to_ib()
    if not connected:
        raise HTTPException(status_code=503, detail="Not connected to IB")

followed (for `POST /orders`) by the required-field loop and, in each handler, a
`return` of a mock payload.  The fragment of Python they use is transcribed into
`PyStmt`, and `execStmts` gives it Python's semantics for function-local names:
a name assigned anywhere in the body (with no `global` declaration — none of
the handlers has one) is local to the entire body, and reading such a local
before its first assignment raises `UnboundLocalError`. -/

/-- Expressions occurring in the handler bodies. -/
inductive PyExpr : Type
  | name (x : String)
  | notE (e : PyExpr)
  | awaitConnectToIb

/-- Simple (non-compound) statements: these are the only statement forms that
occur inside the `if` blocks of the handler bodies. -/
inductive PySimpleStmt : Type
  | assign (x : String) (e : PyExpr)
  | raiseHTTP (status : Nat) (detail : String)

/-- Top-level statements of the handler bodies.  `ifStmt` is an `if` whose
block holds simple statements (the only shape the source uses);
`forRequiredField fields` transcribes the loop of lines 347-350
(`for field in required_fields: if field not in order_data: raise
HTTPException(400, ...)`); `ret tag` is a `return` of the mock payload named
`tag`, whose data content is embedded separately as a pure function of the
same name. -/
inductive PyStmt : Type
  | ifStmt (cond : PyExpr) (body : List PySimpleStmt)
  | forRequiredField (fields : List String)
  | ret (tag : String)

/-- The names a simple statement assigns to. -/
def assignedNamesSimple : PySimpleStmt → List String
  | PySimpleStmt.assign x _ => [x]
  | PySimpleStmt.raiseHTTP _ _ => []

/-- The names a statement assigns to (the targets that make a name local). -/
def assignedNamesStmt : PyStmt → List String
  | PyStmt.ifStmt _ body => (body.map assignedNamesSimple).flatten
  | PyStmt.forRequiredField _ => []
  | PyStmt.ret _ => []

/-- The names a statement list assigns to. -/
def assignedNamesList (l : List PyStmt) : List String :=
  (l.map assignedNamesStmt).flatten

/-- Exceptions a handler can raise. -/
inductive PyError : Type
  | unboundLocal (x : String)
  | nameError (x : String)
  | httpExc (status : Nat) (detail : String)
deriving DecidableEq, Repr

/-- The function-local frame.  The only name the handler bodies ever assign is
the boolean `connected`, so local values are booleans. -/
abbrev Locals := List (String × Bool)

/-- Module-global name lookup: the only global name the handler bodies read is
`connected` (line 47). -/
def globalRead (g : Globals) (x : String) : Option Bool :=
  if x = "connected" then some g.connected else none

/-- Evaluate an expression.  A bare name that is local to the function (it
appears in `localNames`) but has no value yet raises `UnboundLocalError`; a
non-local name is read from the module globals.  `await connect_to_ib()` runs
`connect_to_ib`, which mutates the globals and returns a boolean. -/
def evalExpr (now : String) (localNames : List String) (g : Globals)
    (locals : Locals) : PyExpr → Except PyError (Bool × Globals)
  | PyExpr.name x =>
      if localNames.contains x then
        match locals.lookup x with
        | some v => Except.ok (v, g)
        | none => Except.error (PyError.unboundLocal x)
      else
        match globalRead g x with
        | some v => Except.ok (v, g)
        | none => Except.error (PyError.nameError x)
  | PyExpr.notE e =>
      match evalExpr now localNames g locals e with
      | Except.ok (v, g2) => Except.ok (!v, g2)
      | Except.error err => Except.error err
  | PyExpr.awaitConnectToIb =>
      let r := connect_to_ib now g
      Except.ok (r.1, r.2)

/-- Result of running a statement list: fall through, hit a `return`, or
propagate an exception. -/
inductive StepResult : Type
  | next (g : Globals) (locals : Locals)
  | ret (tag : String) (g : Globals)
  | exc (e : PyError)
deriving Repr

/-- Execute a list of simple statements.  Since no handler declares a name
`global`, every assignment targets the local frame. -/
def execSimples (now : String) (localNames : List String) :
    List PySimpleStmt → Globals → Locals → StepResult
  | [], g, locals => StepResult.next g locals
  | PySimpleStmt.assign x e :: rest, g, locals =>
      match evalExpr now localNames g locals e with
      | Except.error err => StepResult.exc err
      | Except.ok (v, g2) => execSimples now localNames rest g2 ((x, v) :: locals)
  | PySimpleStmt.raiseHTTP s d :: _, _, _ => StepResult.exc (PyError.httpExc s d)

/-- Execute a statement list under Python's scoping rule.  `localNames` is the
set of function-local names (the assigned names of the whole body), `reqKeys`
the set of keys present in the `order_data` argument (consulted only by the
required-field loop). -/
def execStmts (now : String) (localNames reqKeys : List String) :
    List PyStmt → Globals → Locals → StepResult
  | [], g, locals => StepResult.next g locals
  | PyStmt.ifStmt cond body :: rest, g, locals =>
      match evalExpr now localNames g locals cond with
      | Except.error e => StepResult.exc e
      | Except.ok (b, g2) =>
          if b then
            match execSimples now localNames body g2 locals with
            | StepResult.next g3 l3 => execStmts now localNames reqKeys rest g3 l3
            | r => r
          else execStmts now localNames reqKeys rest g2 locals
  | PyStmt.forRequiredField fields :: rest, g, locals =>
      match fields.find? (fun f => !(reqKeys.contains f)) with
      | some f => StepResult.exc (PyError.httpExc 400 ("Missing required field: " ++ f))
      | none => execStmts now localNames reqKeys rest g locals
  | PyStmt.ret tag :: _, g, _ => StepResult.ret tag g

/-- The prologue shared verbatim by all six data handlers (e.g. lines 243-247,
267-271, 307-311, 340-344, 377-381, 395-399). -/
def connect_prologue : List PyStmt :=
  [ PyStmt.ifStmt (PyExpr.notE (PyExpr.name "connected"))
      [PySimpleStmt.assign "connected" PyExpr.awaitConnectToIb],
    PyStmt.ifStmt (PyExpr.notE (PyExpr.name "connected"))
      [PySimpleStmt.raiseHTTP 503 "Not connected to IB"] ]

/-- `get_accounts` body (lines 240-262). -/
def get_accounts_body : List PyStmt :=
  connect_prologue ++ [PyStmt.ret "accounts_mock"]

/-- `get_positions` body (lines 264-302). -/
def get_positions_body : List PyStmt :=
  connect_prologue ++ [PyStmt.ret "positions_mock"]

/-- `get_orders` body (lines 304-335). -/
def get_orders_body : List PyStmt :=
  connect_prologue ++ [PyStmt.ret "orders_mock"]

/-- `place_order` body (lines 337-372). -/
def place_order_body : List PyStmt :=
  connect_prologue ++
  [ PyStmt.forRequiredField ["symbol", "action", "quantity", "orderType"],
    PyStmt.ret "mock_new_order" ]

/-- `cancel_order` body (lines 374-390). -/
def cancel_order_body : List PyStmt :=
  connect_prologue ++ [PyStmt.ret "cancel_order_after_connect"]

/-- `get_market_data` body (lines 392-415). -/
def get_market_data_body : List PyStmt :=
  connect_prologue ++ [PyStmt.ret "market_data_mock"]

/-- Run a handler body on the current globals: locals start empty (no handler
assigns to its parameters), and the local names are exactly the names the body
assigns, per Python's scoping rule. -/
def runHandler (now : String) (reqKeys : List String) (body : List PyStmt)
    (g : Globals) : StepResult :=
  execStmts now (assignedNamesList body) reqKeys body g []

/-! ## Order data (main.py lines 315-390)

Note that the module keeps no collection of orders at all: `place_order` builds
and returns a fresh dict without storing it anywhere, `get_orders` returns a
fixed literal list, and `cancel_order` consults nothing before returning a
fixed success message. -/

/-- The order dict shape returned by `GET /orders` and `POST /orders`
(lines 316-332 and 354-370). -/
structure OrderDict where
  orderId : Int
  clientId : Int
  action : String
  totalQuantity : ℚ
  orderType : String
  lmtPrice : ℚ
  auxPrice : ℚ
  status : String
  filled : ℚ
  remaining : ℚ
  avgFillPrice : ℚ
  lastFillPrice : ℚ
  symbol : String
  secType : String
  exchange : String
deriving DecidableEq, Repr

/-- The single mock order of the `GET /orders` response (lines 316-332). -/
def aapl_filled_order : OrderDict :=
  { orderId := 1
    clientId := 1
    action := "BUY"
    totalQuantity := 100
    orderType := "LMT"
    lmtPrice := 150.0
    auxPrice := 0.0
    status := "Filled"
    filled := 100
    remaining := 0
    avgFillPrice := 149.5
    lastFillPrice := 149.5
    symbol := "AAPL"
    secType := "STK"
    exchange := "SMART" }

/-- The mock order list returned by `get_orders` (lines 315-335). -/
def orders_mock : List OrderDict := [aapl_filled_order]

/-- The JSON body of `POST /orders` (`order_data: Dict[str, Any]`), restricted
to the keys the handler reads; a field is "in `order_data`" iff it is `some`. -/
structure OrderData where
  symbol : Option String
  action : Option String
  quantity : Option ℚ
  orderType : Option String
  limitPrice : Option ℚ
  stopPrice : Option ℚ
  secType : Option String
  exchange : Option String
deriving DecidableEq, Repr

/-- `required_fields` (line 347). -/
def required_fields : List String := ["symbol", "action", "quantity", "orderType"]

/-- Key-presence test on `order_data` (`field in order_data`). -/
def hasKey (d : OrderData) : String → Bool
  | "symbol" => d.symbol.isSome
  | "action" => d.action.isSome
  | "quantity" => d.quantity.isSome
  | "orderType" => d.orderType.isSome
  | "limitPrice" => d.limitPrice.isSome
  | "stopPrice" => d.stopPrice.isSome
  | "secType" => d.secType.isSome
  | "exchange" => d.exchange.isSome
  | _ => false

/-- The validation loop of `place_order` (lines 347-350): report
`(400, "Missing required field: <field>")` for the first required field absent
from `order_data`, `none` when all four are present.  Nothing else is checked:
no sign condition on `quantity`, no price-field requirement for limit or stop
orders. -/
def validate_order_data (d : OrderData) : Option (Nat × String) :=
  match required_fields.find? (fun f => !(hasKey d f)) with
  | some f => some (400, "Missing required field: " ++ f)
  | none => none

/-- The mock order confirmation `new_order` built by `place_order`
(lines 354-370).  The`.getD` defaults on `limitPrice`, `stopPrice`, `secType`
and `exchange` transcribe `order_data.get(key, default)`; the defaults on the
four required fields are never exercised on the code path that builds the dict,
because the validation loop has already established their presence. -/
def mock_new_order (d : OrderData) : OrderDict :=
  { orderId := 2
    clientId := 1
    action := d.action.getD ""
    totalQuantity := d.quantity.getD 0
    orderType := d.orderType.getD ""
    lmtPrice := d.limitPrice.getD 0.0
    auxPrice := d.stopPrice.getD 0.0
    status := "PreSubmitted"
    filled := 0
    remaining := d.quantity.getD 0
    avgFillPrice := 0.0
    lastFillPrice := 0.0
    symbol := d.symbol.getD ""
    secType := d.secType.getD "STK"
    exchange := d.exchange.getD "SMART" }

/-- The part of the `place_order` body below the connection checks
(lines 346-372): run the validation loop, then build and return the mock
confirmation.  No order is stored anywhere. -/
def place_order_after_connect (d : OrderData) : Except (Nat × String) OrderDict :=
  match validate_order_data d with
  | some e => Except.error e
  | none => Except.ok (mock_new_order d)

/-- The response dict of `DELETE /orders/{order_id}` (lines 385-390). -/
structure CancelResponse where
  orderId : Int
  status : String
  message : String
  timestamp : String
deriving DecidableEq, Repr

/-- The part of the `cancel_order` body below the connection checks
(lines 383-390): unconditionally return the fixed success confirmation for the
given id — there is no ledger to consult and no 404 path. -/
def cancel_order_after_connect (order_id : Int) (now : String) : CancelResponse :=
  { orderId := order_id
    status := "Cancelled"
    message := "Order cancelled successfully"
    timestamp := now }

/-! ## Concrete request payloads used as inputs in the proofs -/

/-- A valid limit-order request (cf. the example of spec section 8). -/
def exampleOrderData : OrderData :=
  { symbol := some "AAPL"
    action := some "BUY"
    quantity := some 100
    orderType := some "LMT"
    limitPrice := some 150.0
    stopPrice := none
    secType := none
    exchange := none }

/-- A second valid request, distinct from `exampleOrderData`. -/
def exampleOrderData2 : OrderData :=
  { exampleOrderData with symbol := some "MSFT" }

/-- A request with negative quantity and a limit order type but no limit price:
the spec demands its rejection, the code's validation accepts it. -/
def negQtyOrderData : OrderData :=
  { symbol := some "AAPL"
    action := some "BUY"
    quantity := some (-5)
    orderType := some "LMT"
    limitPrice := none
    stopPrice := none
    secType := none
    exchange := none }

/-- A request body with no recognized keys at all. -/
def emptyOrderData : OrderData :=
  { symbol := none
    action := none
    quantity := none
    orderType := none
    limitPrice := none
    stopPrice := none
    secType := none
    exchange := none }

/-- An environment with no variables set. -/
def no_env : String → Option String := fun _ => none

/-! ## Theorems -/

/-- Helper: the connection invariant holds at module load. -/
theorem connected_state_inv_init (u i t : String) :
    connected_state_inv (init_globals u i t) :=
  fun h => Bool.noConfusion h

/-- Helper: `connect_to_ib` preserves the connection invariant. -/
theorem connected_state_inv_connect (now : String) (g : Globals)
    (hinv : connected_state_inv g) :
    connected_state_inv (connect_to_ib now g).2 := by
  by_cases hg : g.connected = true
  · simpa [connect_to_ib, hg] using hinv
  · intro h
    simp [connect_to_ib, connect_to_ib_try, hg]

/-- Helper: `disconnect_from_ib` preserves the connection invariant. -/
theorem connected_state_inv_disconnect (g : Globals) (hinv : connected_state_inv g) :
    connected_state_inv (disconnect_from_ib g).2 := by
  by_cases hg : g.connected = true
  · intro h
    simp [disconnect_from_ib, hg] at h
  · simpa [disconnect_from_ib, hg] using hinv

/-- Helper: an UnboundLocalError outcome is not an HTTPException outcome. -/
theorem unbound_not_http (s : Nat) (d : String) :
    StepResult.exc (PyError.unboundLocal "connected")
      ≠ StepResult.exc (PyError.httpExc s d) := by
  intro h
  exact absurd (StepResult.exc.inj h) (by simp)

/-- Claim C1 is false at a concrete input: a `GET /accounts` request in the
initial, disconnected state does not fail with HTTP 503 — it aborts with
`UnboundLocalError` on `connected` (an unhandled server error). -/
theorem c1_counterexample :
    (init_globals "u1" "user" "t0").connected = false ∧
    runHandler "t1" [] get_accounts_body (init_globals "u1" "user" "t0")
      ≠ StepResult.exc (PyError.httpExc 503 "Not connected to IB") ∧
    runHandler "t1" [] get_accounts_body (init_globals "u1" "user" "t0")
      = StepResult.exc (PyError.unboundLocal "connected") :=
  ⟨rfl, unbound_not_http 503 "Not connected to IB", rfl⟩

/-- Claim C1, amended: a request to `GET /accounts`, `GET /positions`,
`GET /orders`, `POST /orders`, `DELETE /orders/{id}` or
`GET /marketdata/{symbol}` made while the session is not connected fails with
`UnboundLocalError` on `connected` — an unhandled exception, not the HTTP 503
ServiceUnavailable response — and for `POST /orders` no Order is created (the
handler aborts before its validation and before building the confirmation, and
the module stores no orders in any case). -/
theorem c1_disconnected_requests_unbound_not_503 :
    ∀ (now : String) (reqKeys : List String) (g : Globals), g.connected = false →
      (runHandler now reqKeys get_accounts_body g
          = StepResult.exc (PyError.unboundLocal "connected") ∧
        runHandler now reqKeys get_accounts_body g
          ≠ StepResult.exc (PyError.httpExc 503 "Not connected to IB")) ∧
      (runHandler now reqKeys get_positions_body g
          = StepResult.exc (PyError.unboundLocal "connected") ∧
        runHandler now reqKeys get_positions_body g
          ≠ StepResult.exc (PyError.httpExc 503 "Not connected to IB")) ∧
      (runHandler now reqKeys get_orders_body g
          = StepResult.exc (PyError.unboundLocal "connected") ∧
        runHandler now reqKeys get_orders_body g
          ≠ StepResult.exc (PyError.httpExc 503 "Not connected to IB")) ∧
      (runHandler now reqKeys place_order_body g
          = StepResult.exc (PyError.unboundLocal "connected") ∧
        runHandler now reqKeys place_order_body g
          ≠ StepResult.exc (PyError.httpExc 503 "Not connected to IB")) ∧
      (runHandler now reqKeys cancel_order_body g
          = StepResult.exc (PyError.unboundLocal "connected") ∧
        runHandler now reqKeys cancel_order_body g
          ≠ StepResult.exc (PyError.httpExc 503 "Not connected to IB")) ∧
      (runHandler now reqKeys get_market_data_body g
          = StepResult.exc (PyError.unboundLocal "connected") ∧
        runHandler now reqKeys get_market_data_body g
          ≠ StepResult.exc (PyError.httpExc 503 "Not connected to IB")) :=
  fun _ _ _ _ =>
    ⟨⟨rfl, unbound_not_http 503 "Not connected to IB"⟩,
     ⟨rfl, unbound_not_http 503 "Not connected to IB"⟩,
     ⟨rfl, unbound_not_http 503 "Not connected to IB"⟩,
     ⟨rfl, unbound_not_http 503 "Not connected to IB"⟩,
     ⟨rfl, unbound_not_http 503 "Not connected to IB"⟩,
     ⟨rfl, unbound_not_http 503 "Not connected to IB"⟩⟩

/-- Witness for C1 at a concrete disconnected state. -/
theorem c1_witness :
    (init_globals "u2" "user2" "t0").connected = false ∧
    runHandler "t1" [] get_positions_body (init_globals "u2" "user2" "t0")
      = StepResult.exc (PyError.unboundLocal "connected") :=
  ⟨rfl,
   (c1_disconnected_requests_unbound_not_503 "t1" [] (init_globals "u2" "user2" "t0")
      rfl).2.1.1⟩

/-- Claim C2 (confirmed): each of the six data handlers assigns `connected`
(and nothing else) without a global declaration, so the name is local to the
whole body; the first read of `connected` therefore raises `UnboundLocalError`
on every request, whatever the global connection state — the handler never
reaches its 503 branch, its validation loop, or its mock-response return. -/
theorem c2_handlers_always_raise_unbound_local :
    ∀ (now : String) (reqKeys : List String) (g : Globals),
      assignedNamesList get_accounts_body = ["connected"] ∧
      assignedNamesList get_positions_body = ["connected"] ∧
      assignedNamesList get_orders_body = ["connected"] ∧
      assignedNamesList place_order_body = ["connected"] ∧
      assignedNamesList cancel_order_body = ["connected"] ∧
      assignedNamesList get_market_data_body = ["connected"] ∧
      runHandler now reqKeys get_accounts_body g
        = StepResult.exc (PyError.unboundLocal "connected") ∧
      runHandler now reqKeys get_positions_body g
        = StepResult.exc (PyError.unboundLocal "connected") ∧
      runHandler now reqKeys get_orders_body g
        = StepResult.exc (PyError.unboundLocal "connected") ∧
      runHandler now reqKeys place_order_body g
        = StepResult.exc (PyError.unboundLocal "connected") ∧
      runHandler now reqKeys cancel_order_body g
        = StepResult.exc (PyError.unboundLocal "connected") ∧
      runHandler now reqKeys get_market_data_body g
        = StepResult.exc (PyError.unboundLocal "connected") :=
  fun _ _ _ =>
    ⟨rfl, rfl, rfl, rfl, rfl, rfl, rfl, rfl, rfl, rfl, rfl, rfl⟩

/-- Claim C3 is false at a concrete input: for a valid limit-order request
while connected, `place_order` does not return an Order in status
`"PendingSubmit"` — the handler aborts with `UnboundLocalError`, and even the
mock confirmation its body would build carries status `"PreSubmitted"`. -/
theorem c3_counterexample :
    place_order_after_connect exampleOrderData
      = Except.ok (mock_new_order exampleOrderData) ∧
    (mock_new_order exampleOrderData).status = "PreSubmitted" ∧
    (mock_new_order exampleOrderData).status ≠ "PendingSubmit" ∧
    runHandler "t1" ["symbol", "action", "quantity", "orderType"] place_order_body
      connected_globals = StepResult.exc (PyError.unboundLocal "connected") :=
  ⟨rfl, rfl, by decide, rfl⟩

/-- Claim C3, amended: `place_order` never returns an Order (every invocation
raises `UnboundLocalError`); the mock confirmation its body constructs for a
request with quantity `q` has `filled = 0`, `remaining = q` and
`totalQuantity = q`, but its status is `"PreSubmitted"`, not `"PendingSubmit"`. -/
theorem c3_place_order_mock_fields :
    ∀ (now : String) (reqKeys : List String) (g : Globals) (d : OrderData) (q : ℚ),
      d.quantity = some q →
      ((mock_new_order d).filled = 0 ∧
       (mock_new_order d).remaining = q ∧
       (mock_new_order d).totalQuantity = q ∧
       (mock_new_order d).status = "PreSubmitted" ∧
       runHandler now reqKeys place_order_body g
         = StepResult.exc (PyError.unboundLocal "connected")) := by
  intro now reqKeys g d q hq
  refine ⟨rfl, ?_, ?_, rfl, rfl⟩ <;> simp [mock_new_order, hq]

/-- Witness for C3 at a concrete valid request. -/
theorem c3_witness :
    exampleOrderData.quantity = some 100 ∧
    (mock_new_order exampleOrderData).remaining = 100 :=
  ⟨rfl,
   (c3_place_order_mock_fields "t1" [] connected_globals exampleOrderData 100 rfl).2.1⟩

/-- Claim C4 is false at a concrete input: a request without an `X-API-Key`
header is rejected with HTTP 403 by the security scheme, not with 401. -/
theorem c4_counterexample :
    request_auth "secret" none = Except.error (403, "Not authenticated") ∧
    request_auth "secret" none ≠ Except.error (401, "Invalid API Key") :=
  ⟨rfl, fun h => absurd (Except.error.inj h) (by decide)⟩

/-- Claim C4, amended: a present, non-empty `X-API-Key` value is compared to
the configured key by exact string match and rejected with HTTP 401 exactly
when it differs; an absent header — or one with an empty value — is rejected
by the `APIKeyHeader` security scheme with HTTP 403, not 401. -/
theorem c4_auth_mismatch_401_absent_403 :
    ∀ (k h : String),
      (h ≠ "" →
        (request_auth k (some h) = Except.error (401, "Invalid API Key") ↔ h ≠ k)) ∧
      request_auth k none = Except.error (403, "Not authenticated") ∧
      request_auth k (some "") = Except.error (403, "Not authenticated") := by
  intro k h
  refine ⟨?_, rfl, rfl⟩
  intro hne
  by_cases hk : h = k
  · subst hk
    simp [request_auth, api_key_header_resolve, verify_api_key, hne]
  · simp [request_auth, api_key_header_resolve, verify_api_key, hne, hk]

/-- Witness for C4: a concrete mismatched non-empty key is rejected with 401. -/
theorem c4_witness :
    request_auth "secret" (some "wrong") = Except.error (401, "Invalid API Key") :=
  ((c4_auth_mismatch_401_absent_403 "secret" "wrong").1 (by decide)).mpr (by decide)

/-- Claim C5 is false at a concrete input: with `API_KEY` unset the expected
key is `""`, yet a request presenting an empty `X-API-Key` value is rejected
with 403 by the security scheme, not authorized. -/
theorem c5_counterexample :
    api_key_value no_env = "" ∧
    request_auth (api_key_value no_env) (some "")
      = Except.error (403, "Not authenticated") ∧
    request_auth (api_key_value no_env) (some "") ≠ Except.ok "" :=
  ⟨rfl, rfl, fun h => Except.noConfusion h⟩

/-- Claim C5, amended: `verify_api_key` itself authorizes exactly the values
string-equal to `API_KEY`, and with the `API_KEY` environment variable unset or
empty the expected value is `""`; but the `APIKeyHeader` security scheme
rejects an absent or empty-valued header with HTTP 403 before `verify_api_key`
runs, so a request presenting an empty `X-API-Key` value is not authorized. -/
theorem c5_verify_exact_match_but_empty_rejected :
    ∀ (env : String → Option String) (k v : String),
      (verify_api_key k v = Except.ok v ↔ v = k) ∧
      ((env "API_KEY" = none ∨ env "API_KEY" = some "") → api_key_value env = "") ∧
      request_auth k (some "") = Except.error (403, "Not authenticated") ∧
      request_auth k none = Except.error (403, "Not authenticated") := by
  intro env k v
  refine ⟨?_, ?_, rfl, rfl⟩
  · by_cases hv : v = k
    · simp [verify_api_key, hv]
    · simp [verify_api_key, hv]
  · intro h
    rcases h with h | h <;> simp [api_key_value, h]

/-- Witness for C5 at the empty environment and empty strings. -/
theorem c5_witness :
    (verify_api_key "" "" = Except.ok "" ↔ ("" : String) = "") ∧
    api_key_value no_env = "" :=
  ⟨(c5_verify_exact_match_but_empty_rejected no_env "" "").1,
   (c5_verify_exact_match_but_empty_rejected no_env "" "").2.1 (Or.inl rfl)⟩

/-- Claim C6 is false at a concrete input: two distinct order placements both
receive the mock confirmation orderId 2 — the ids are neither strictly
increasing nor distinct. -/
theorem c6_counterexample :
    exampleOrderData ≠ exampleOrderData2 ∧
    place_order_after_connect exampleOrderData
      = Except.ok (mock_new_order exampleOrderData) ∧
    place_order_after_connect exampleOrderData2
      = Except.ok (mock_new_order exampleOrderData2) ∧
    (mock_new_order exampleOrderData).orderId
      = (mock_new_order exampleOrderData2).orderId :=
  ⟨by decide, rfl, rfl, rfl⟩

/-- Claim C6, amended: `place_order` assigns no ids at all — every mock order
confirmation its body constructs carries the constant orderId 2, so any two
placements receive the same id; and in fact no placement is ever accepted,
since the handler raises `UnboundLocalError` on every invocation. -/
theorem c6_order_id_constant :
    ∀ (d d2 : OrderData) (now : String) (reqKeys : List String) (g : Globals),
      (mock_new_order d).orderId = 2 ∧
      (mock_new_order d).orderId = (mock_new_order d2).orderId ∧
      runHandler now reqKeys place_order_body g
        = StepResult.exc (PyError.unboundLocal "connected") :=
  fun _ _ _ _ _ => ⟨rfl, rfl, rfl⟩

/-- Claim C7 is false at a concrete input: a request with quantity -5 and
orderType `"LMT"` with no `limitPrice` passes the validation loop and yields a
mock confirmation instead of a 400 ValidationError. -/
theorem c7_counterexample :
    negQtyOrderData.quantity = some (-5) ∧
    negQtyOrderData.orderType = some "LMT" ∧
    negQtyOrderData.limitPrice = none ∧
    validate_order_data negQtyOrderData = none ∧
    place_order_after_connect negQtyOrderData
      = Except.ok (mock_new_order negQtyOrderData) :=
  ⟨rfl, rfl, rfl, rfl, rfl⟩

/-- Claim C7, amended: the only validation in `place_order` is key presence —
a request passes iff `symbol`, `action`, `quantity` and `orderType` are all
present, and any rejection is a 400 naming the first missing field; the sign of
`quantity` and the presence of `limitPrice`/`stopPrice` are never checked (and
the handler in fact raises `UnboundLocalError` before the validation runs). -/
theorem c7_validation_presence_only :
    ∀ d : OrderData,
      (validate_order_data d = none ↔
        (d.symbol.isSome = true ∧ d.action.isSome = true ∧
         d.quantity.isSome = true ∧ d.orderType.isSome = true)) ∧
      (validate_order_data d = none ∨
       validate_order_data d = some (400, "Missing required field: symbol") ∨
       validate_order_data d = some (400, "Missing required field: action") ∨
       validate_order_data d = some (400, "Missing required field: quantity") ∨
       validate_order_data d = some (400, "Missing required field: orderType")) ∧
      (∀ (now : String) (reqKeys : List String) (g : Globals),
        runHandler now reqKeys place_order_body g
          = StepResult.exc (PyError.unboundLocal "connected")) := by
  intro d
  obtain ⟨s, a, q, t, lp, sp, st, ex⟩ := d
  refine ⟨?_, ?_, fun _ _ _ => rfl⟩
  · cases s <;> cases a <;> cases q <;> cases t <;>
      simp [validate_order_data, required_fields, hasKey, List.find?]
  · cases s <;> cases a <;> cases q <;> cases t <;>
      first
        | exact Or.inl rfl
        | exact Or.inr (Or.inl rfl)
        | exact Or.inr (Or.inr (Or.inl rfl))
        | exact Or.inr (Or.inr (Or.inr (Or.inl rfl)))
        | exact Or.inr (Or.inr (Or.inr (Or.inr rfl)))

/-- Claim C8 is false at a concrete input: cancelling the unknown order id 999
does not return a 404 NotFound — the body returns the fixed success
confirmation (and the full handler aborts with `UnboundLocalError`). -/
theorem c8_counterexample :
    cancel_order_after_connect 999 "t1"
      = { orderId := 999, status := "Cancelled",
          message := "Order cancelled successfully", timestamp := "t1" } ∧
    (cancel_order_after_connect 999 "t1").status ≠ "NotFound" ∧
    runHandler "t1" [] cancel_order_body connected_globals
      = StepResult.exc (PyError.unboundLocal "connected") :=
  ⟨rfl, by decide, rfl⟩

/-- Claim C8, amended: `cancel_order` keeps no ledger and has no 404 path: for
every order id its body returns the same fixed success confirmation with status
`"Cancelled"` — and the handler in fact raises `UnboundLocalError` before
reaching it. -/
theorem c8_cancel_always_success_mock :
    ∀ (order_id : Int) (now now2 : String) (reqKeys : List String) (g : Globals),
      cancel_order_after_connect order_id now
        = { orderId := order_id, status := "Cancelled",
            message := "Order cancelled successfully", timestamp := now } ∧
      runHandler now2 reqKeys cancel_order_body g
        = StepResult.exc (PyError.unboundLocal "connected") :=
  fun _ _ _ _ _ => ⟨rfl, rfl⟩

/-- Claim C9 (confirmed): every order the API code constructs — each element
of the `GET /orders` mock list and every mock confirmation built by
`POST /orders` — satisfies filled + remaining = totalQuantity. -/
theorem c9_filled_plus_remaining_eq_total :
    (∀ o, o ∈ orders_mock → o.filled + o.remaining = o.totalQuantity) ∧
    (∀ d : OrderData,
      (mock_new_order d).filled + (mock_new_order d).remaining
        = (mock_new_order d).totalQuantity) := by
  constructor
  · intro o ho
    have h : o = aapl_filled_order := by simpa [orders_mock] using ho
    subst h
    norm_num [aapl_filled_order]
  · intro d
    simp [mock_new_order]

/-- Witness for C9 at the concrete mock order of `GET /orders`. -/
theorem c9_witness :
    aapl_filled_order.filled + aapl_filled_order.remaining
      = aapl_filled_order.totalQuantity :=
  c9_filled_plus_remaining_eq_total.1 aapl_filled_order (by simp [orders_mock])

/-- Claim C10 (confirmed): the try body of `connect_to_ib` cannot fail, so the
except branch is dead and every call returns `True`; from any state satisfying
the connection invariant (which holds at module load and is preserved by
connect/disconnect), the post-call state has `connected = True` and status
`"connected"`, and `POST /connect` responds with success = true and status
`"connected"`. -/
theorem c10_connect_always_succeeds :
    ∀ (now : String) (g : Globals),
      except_is_ok (connect_to_ib_try now g) = true ∧
      (connect_to_ib now g).1 = true ∧
      (connected_state_inv g →
        ((connect_to_ib now g).2.connected = true ∧
         (connect_to_ib now g).2.server_state.connected = true ∧
         (connect_to_ib now g).2.server_state.status = "connected" ∧
         (connect_endpoint now g).1.success = true ∧
         (connect_endpoint now g).1.status = "connected")) := by
  intro now g
  by_cases hg : g.connected = true
  · refine ⟨rfl, ?_, ?_⟩
    · simp [connect_to_ib, hg]
    · intro hinv
      obtain ⟨hc, hs⟩ := hinv hg
      simp [connect_to_ib, connect_endpoint, hg, hc, hs]
  · refine ⟨rfl, ?_, ?_⟩
    · simp [connect_to_ib, connect_to_ib_try, hg]
    · intro _
      simp [connect_to_ib, connect_to_ib_try, connect_endpoint, hg]

/-- Witness for C10 at the initial state. -/
theorem c10_witness :
    (connect_to_ib "t1" (init_globals "u1" "user" "t0")).1 = true ∧
    (connect_to_ib "t1" (init_globals "u1" "user" "t0")).2.server_state.status
      = "connected" ∧
    (connect_endpoint "t1" (init_globals "u1" "user" "t0")).1.success = true :=
  ⟨(c10_connect_always_succeeds "t1" (init_globals "u1" "user" "t0")).2.1,
   ((c10_connect_always_succeeds "t1" (init_globals "u1" "user" "t0")).2.2
      (connected_state_inv_init "u1" "user" "t0")).2.2.1,
   ((c10_connect_always_succeeds "t1" (init_globals "u1" "user" "t0")).2.2
      (connected_state_inv_init "u1" "user" "t0")).2.2.2.1⟩

end IBeamApi
